import Mathlib

/-!
Verification of the Windows stdio client module (`mcp/client/stdio/win32.py`).

The module has three parts:
* `get_windows_executable_command` — resolves a bare command name to an
  executable path using `shutil.which`, trying a fixed list of Windows
  suffixes, and catching `OSError`;
* `FallbackProcess` — wraps a `subprocess.Popen` object, exposing async
  streams over the raw pipe handles and a teardown sequence in `__aexit__`;
* `create_windows_process` — spawns the process with console-suppression
  creation flags and falls back to a spawn without them.

The embedding is executable: external effects (`shutil.which`, spawning,
raising of `OSError` while closing a file) are passed in as explicit
oracles, and the teardown is modelled as a state machine that records the
trace of operations it performs.
-/

/-- Exceptions distinguished by the source: `OSError` (the only class the
resolver catches) and any other ordinary exception. -/
inductive PyExc
  | osError
  | other
deriving DecidableEq, Repr, Fintype

/-- Result of one `shutil.which` lookup.  `found path` models a returned
string (possibly empty, which Python treats as falsy), `notFound` models
`None`, and `raise e` models the lookup raising exception `e`. -/
inductive LookupResult
  | found (path : String)
  | notFound
  | raise (e : PyExc)
deriving DecidableEq

/-- The fixed ordered suffix list of `get_windows_executable_command`. -/
def searchExts : List String := [".cmd", ".bat", ".exe", ".ps1"]

/-- The `for ext in [...]` loop of `get_windows_executable_command`:
`ext_version = f"{command}{ext}"; if ext_path := shutil.which(ext_version):
return ext_path`.  The walrus `if` tests truthiness, so an empty string is
skipped like `None`.  After the loop: `return command`.  Exceptions
propagate out of the loop (the `try` is around the whole function body). -/
def whichLoop (which : String → LookupResult) (command : String) :
    List String → Except PyExc String
  | [] => Except.ok command
  | ext :: rest =>
    match which (command ++ ext) with
    | LookupResult.raise e => Except.error e
    | LookupResult.found ext_path =>
      if ext_path = "" then whichLoop which command rest else Except.ok ext_path
    | LookupResult.notFound => whichLoop which command rest

/-- The body of the `try:` block of `get_windows_executable_command`:
`if command_path := shutil.which(command): return command_path`, then the
suffix loop. -/
def resolveBody (which : String → LookupResult) (command : String) :
    Except PyExc String :=
  match which command with
  | LookupResult.raise e => Except.error e
  | LookupResult.found command_path =>
    if command_path = "" then whichLoop which command searchExts
    else Except.ok command_path
  | LookupResult.notFound => whichLoop which command searchExts

/-- `get_windows_executable_command(command)`: the `try` body wrapped in
`except OSError: return command`.  Any exception other than `OSError`
propagates. -/
def get_windows_executable_command (which : String → LookupResult)
    (command : String) : Except PyExc String :=
  match resolveBody which command with
  | Except.ok p => Except.ok p
  | Except.error PyExc.osError => Except.ok command
  | Except.error PyExc.other => Except.error PyExc.other

/-- A raw OS file handle (a `subprocess` pipe end), identified by id. -/
structure RawFile where
  id : Nat
deriving DecidableEq, Repr

/-- `anyio.streams.file.FileWriteStream`: wraps one raw file handle; its
`aclose` closes the wrapped file. -/
structure FileWriteStream where
  file : RawFile
deriving DecidableEq, Repr

/-- `anyio.streams.file.FileReadStream`: wraps one raw file handle; its
`aclose` closes the wrapped file. -/
structure FileReadStream where
  file : RawFile
deriving DecidableEq, Repr

/-- `subprocess.Popen[bytes]`: the raw process object with its three
optional pipe handles (a handle is `none` when that side was not piped). -/
structure Popen where
  stdin : Option RawFile
  stdout : Option RawFile
  stderr : Option RawFile
deriving DecidableEq, Repr

/-- The `FallbackProcess` adapter: the fields set by `__init__`. -/
structure FallbackProcess where
  popen : Popen
  stdin_raw : Option RawFile
  stdout_raw : Option RawFile
  stderr : Option RawFile
  stdin : Option FileWriteStream
  stdout : Option FileReadStream
deriving DecidableEq, Repr

/-- `FallbackProcess.__init__(popen_obj)`: stores the raw handles and wraps
`stdin`/`stdout` into async streams only when the raw handle is present
(`FileWriteStream(...) if self.stdin_raw else None`); `stderr` is kept
unwrapped. -/
def FallbackProcess.ofPopen (popen_obj : Popen) : FallbackProcess where
  popen := popen_obj
  stdin_raw := popen_obj.stdin
  stdout_raw := popen_obj.stdout
  stderr := popen_obj.stderr
  stdin := popen_obj.stdin.map (fun f => FileWriteStream.mk f)
  stdout := popen_obj.stdout.map (fun f => FileReadStream.mk f)

/-- Observable state of the adapter: whether termination was requested,
whether the process exit has been awaited, and which of the three
underlying raw handles are closed.  The stream wrappers wrap the same raw
handles, so closing a stream and closing its raw handle act on the same
flag. -/
structure HState where
  termRequested : Bool
  waited : Bool
  stdinClosed : Bool
  stdoutClosed : Bool
  stderrClosed : Bool
deriving DecidableEq, Repr, Fintype

/-- The all-clear initial state: process live, all handles open. -/
def initState : HState := ⟨false, false, false, false, false⟩

/-- Whether the first effective close of each raw handle raises `OSError`
(a real possibility in Python: `close` flushes, and flushing to a broken
pipe raises).  Closing an already-closed file is a no-op that never raises,
per Python file-object semantics. -/
structure CloseBehavior where
  stdinFails : Bool
  stdoutFails : Bool
  stderrFails : Bool
deriving DecidableEq, Repr, Fintype

/-- The close behavior in which no close call raises. -/
def noFailure : CloseBehavior := ⟨false, false, false⟩

/-- The three raw-handle roles of the adapter. -/
inductive Hnd
  | stdin
  | stdout
  | stderr
deriving DecidableEq, Repr, Fintype

/-- The operations `__aexit__` performs, in the order its body names them. -/
inductive Step
  | terminate
  | waitExit
  | closeStdinStream
  | closeStdoutStream
  | closeStdinRaw
  | closeStdoutRaw
  | closeStderrRaw
deriving DecidableEq, Repr, Fintype

/-- How a Python call ends: raising an exception, or returning a value
(`__aexit__` returns `None`, modelled as `returned none`; a `returned
(some true)` would tell the runtime to suppress the managed exception). -/
inductive PyResult
  | raised (e : PyExc)
  | returned (v : Option Bool)
deriving DecidableEq, Repr

def CloseBehavior.fails (cb : CloseBehavior) : Hnd → Bool
  | Hnd.stdin => cb.stdinFails
  | Hnd.stdout => cb.stdoutFails
  | Hnd.stderr => cb.stderrFails

def HState.isClosed (s : HState) : Hnd → Bool
  | Hnd.stdin => s.stdinClosed
  | Hnd.stdout => s.stdoutClosed
  | Hnd.stderr => s.stderrClosed

def HState.markClosed (s : HState) : Hnd → HState
  | Hnd.stdin => { s with stdinClosed := true }
  | Hnd.stdout => { s with stdoutClosed := true }
  | Hnd.stderr => { s with stderrClosed := true }

/-- Runs the sequence of guarded close statements of `__aexit__`.  Each
entry `(present, st, h)` is one `if x: x.close()` statement: skipped when
the attribute is absent; recorded in the trace and applied to handle `h`
when present.  A close of an open handle is an effective close (recorded in
the second list) and raises when `cb` says so, in which case the remaining
statements do not run (the Python statements are sequential, with no
`try`/`finally` around them).  A close of an already-closed handle is a
no-op that never raises. -/
def runCloses (cb : CloseBehavior) :
    List (Bool × Step × Hnd) → HState →
    HState × List Step × List Hnd × Option PyExc
  | [], s => (s, [], [], none)
  | (present, st, h) :: rest, s =>
    if present then
      if s.isClosed h then
        let r := runCloses cb rest s
        (r.1, st :: r.2.1, r.2.2.1, r.2.2.2)
      else
        let s1 := s.markClosed h
        if cb.fails h then
          (s1, [st], [h], some PyExc.osError)
        else
          let r := runCloses cb rest s1
          (r.1, st :: r.2.1, h :: r.2.2.1, r.2.2.2)
    else
      runCloses cb rest s

/-- The outcome of one `__aexit__` call: final state, trace of operations
attempted in order, raw handles effectively closed in order, and how the
call ended. -/
structure AexitOut where
  state : HState
  trace : List Step
  effClosed : List Hnd
  result : PyResult
deriving DecidableEq, Repr

/-- The body of `FallbackProcess.__aexit__`, parameterised by which of the
five optional attributes (`self.stdin`, `self.stdout`, `self.stdin_raw`,
`self.stdout_raw`, `self.stderr`) are present:
`self.popen.terminate()`; `await to_thread.run_sync(self.popen.wait)`;
then the five guarded close statements in source order.  The stream
`aclose` calls close the same underlying raw handles that the later raw
`close` calls target. -/
def aexitCore (hasStdin hasStdout hasStdinRaw hasStdoutRaw hasStderr : Bool)
    (cb : CloseBehavior) (s : HState) : AexitOut :=
  let s1 : HState := { s with termRequested := true }
  let s2 : HState := { s1 with waited := true }
  let r := runCloses cb
    [(hasStdin, Step.closeStdinStream, Hnd.stdin),
     (hasStdout, Step.closeStdoutStream, Hnd.stdout),
     (hasStdinRaw, Step.closeStdinRaw, Hnd.stdin),
     (hasStdoutRaw, Step.closeStdoutRaw, Hnd.stdout),
     (hasStderr, Step.closeStderrRaw, Hnd.stderr)] s2
  { state := r.1
    trace := Step.terminate :: Step.waitExit :: r.2.1
    effClosed := r.2.2.1
    result := match r.2.2.2 with
      | some e => PyResult.raised e
      | none => PyResult.returned none }

/-- `FallbackProcess.__aexit__(exc_type, exc_val, exc_tb)`: the exception
arguments are accepted but never read by the body. -/
def FallbackProcess.aexit (p : FallbackProcess) (cb : CloseBehavior)
    (excType excVal : Option PyExc) (excTb : Option Unit) (s : HState) :
    AexitOut :=
  aexitCore p.stdin.isSome p.stdout.isSome p.stdin_raw.isSome
    p.stdout_raw.isSome p.stderr.isSome cb s

/-- `Popen.terminate()`: requests termination of the process; a no-op
beyond setting the request if already terminated (Python suppresses the
already-exited error). -/
def Popen.terminate (po : Popen) (s : HState) : HState :=
  { s with termRequested := true }

/-- `Popen.wait()`: blocks until the process exits. -/
def Popen.wait (po : Popen) (s : HState) : HState :=
  { s with waited := true }

/-- `FallbackProcess.terminate()`: `return self.popen.terminate()`. -/
def FallbackProcess.terminate (p : FallbackProcess) (s : HState) : HState :=
  p.popen.terminate s

/-- `FallbackProcess.kill()`: `self.terminate()`. -/
def FallbackProcess.kill (p : FallbackProcess) (s : HState) : HState :=
  p.terminate s

/-- `FallbackProcess.wait()`: `await to_thread.run_sync(self.popen.wait)`. -/
def FallbackProcess.wait (p : FallbackProcess) (s : HState) : HState :=
  p.popen.wait s

/-- The argument tuple a spawn attempt receives (everything except the
creation flags, which are the boolean the oracle also receives). -/
structure SpawnArgs where
  command : String
  args : List String
  env : Option (List (String × String))
  errlog : Option Nat
  cwd : Option String
deriving DecidableEq, Repr

/-- Outcome of one `subprocess.Popen(...)` call: a process object, or an
exception (the source catches every ordinary exception on the first
attempt). -/
inductive SpawnOutcome
  | ok (popen_obj : Popen)
  | raise (e : PyExc)
deriving DecidableEq, Repr

/-- `create_windows_process(command, args, env, errlog, cwd)`: first spawn
attempt with `creationflags=getattr(subprocess, "CREATE_NO_WINDOW", 0)`
(oracle flag `true`); on any exception, a second identical attempt without
the creation flags (oracle flag `false`), whose exception propagates.  The
returned list records the attempts made, in order. -/
def create_windows_process (spawn : SpawnArgs → Bool → SpawnOutcome)
    (command : String) (args : List String)
    (env : Option (List (String × String))) (errlog : Option Nat)
    (cwd : Option String) : List Bool × Except PyExc FallbackProcess :=
  let sa : SpawnArgs := ⟨command, args, env, errlog, cwd⟩
  match spawn sa true with
  | SpawnOutcome.ok popen_obj =>
    ([true], Except.ok (FallbackProcess.ofPopen popen_obj))
  | SpawnOutcome.raise _ =>
    match spawn sa false with
    | SpawnOutcome.ok popen_obj =>
      ([true, false], Except.ok (FallbackProcess.ofPopen popen_obj))
    | SpawnOutcome.raise e => ([true, false], Except.error e)

/-- The teardown step order the specification states: terminate, await
exit, close write stream if present, close read stream if present, close
raw write handle if present, close raw read handle if present, close raw
error handle if present. -/
def expectedTrace (hasStdin hasStdout hasStdinRaw hasStdoutRaw hasStderr :
    Bool) : List Step :=
  [Step.terminate, Step.waitExit] ++
    (if hasStdin then [Step.closeStdinStream] else []) ++
    (if hasStdout then [Step.closeStdoutStream] else []) ++
    (if hasStdinRaw then [Step.closeStdinRaw] else []) ++
    (if hasStdoutRaw then [Step.closeStdoutRaw] else []) ++
    (if hasStderr then [Step.closeStderrRaw] else [])

/-- Lifts an exception-free lookup function (`None` or a path) into the
oracle type of the embedded resolver. -/
def liftWhich (whichS : String → Option String) : String → LookupResult :=
  fun s =>
    match whichS s with
    | some p => LookupResult.found p
    | none => LookupResult.notFound

/-- The resolution algorithm as the specification states it: return the
bare lookup result if the command resolves; otherwise the first hit among
the suffixed candidates in order; otherwise the original command name. -/
def specResolve (whichS : String → Option String) (command : String) :
    String :=
  match whichS command with
  | some p => p
  | none =>
    match searchExts.findSome? (fun ext => whichS (command ++ ext)) with
    | some p => p
    | none => command

/-- A concrete adapter over a fully piped process, for concrete runs. -/
def sampleProcess : FallbackProcess :=
  FallbackProcess.ofPopen ⟨some ⟨0⟩, some ⟨1⟩, some ⟨2⟩⟩

/-- A concrete lookup oracle on which the bare lookup raises a filesystem
error while a suffixed candidate would resolve. -/
def cex5which : String → LookupResult := fun s =>
  if s = "uvx" then LookupResult.raise PyExc.osError
  else if s = "uvx.cmd" then LookupResult.found "C:/tools/uvx.cmd"
  else LookupResult.notFound

/-- Claim C1: on scoped exit of the adapter (`FallbackProcess.__aexit__`),
the teardown steps are always performed in this order: terminate, await
process exit, close the write stream if present, close the read stream if
present, close the raw write and read handles if present, and finally the
raw error handle if present. -/
theorem C1_teardown_order (p : FallbackProcess) (s : HState) :
    (p.aexit noFailure none none none s).trace =
      expectedTrace p.stdin.isSome p.stdout.isSome p.stdin_raw.isSome
        p.stdout_raw.isSome p.stderr.isSome := by
  have key : ∀ (b1 b2 b3 b4 b5 : Bool) (s : HState),
      (aexitCore b1 b2 b3 b4 b5 noFailure s).trace =
        expectedTrace b1 b2 b3 b4 b5 := by decide
  exact key _ _ _ _ _ s

/-- Claim C2, counterexample: on a fully piped adapter, when closing the
write stream raises, teardown stops there — the read-stream close and the
error-handle close are never attempted, contradicting the claim that each
closing step is attempted even if an earlier one raised. -/
theorem C2_counterexample :
    (sampleProcess.aexit ⟨true, false, false⟩ none none none
        initState).result = PyResult.raised PyExc.osError ∧
    (sampleProcess.aexit ⟨true, false, false⟩ none none none
        initState).trace =
      [Step.terminate, Step.waitExit, Step.closeStdinStream] ∧
    Step.closeStdoutStream ∉
      (sampleProcess.aexit ⟨true, false, false⟩ none none none
        initState).trace ∧
    Step.closeStderrRaw ∉
      (sampleProcess.aexit ⟨true, false, false⟩ none none none
        initState).trace := by decide

set_option maxHeartbeats 4000000 in
/-- Claim C2, amended: the closing steps run sequentially and fail fast —
the attempted steps are always an initial segment of the canonical
teardown order, and all closing steps are performed exactly when no close
call raises; the first raising close aborts the teardown, skipping the
remaining closing steps. -/
theorem C2_fail_fast (p : FallbackProcess) (cb : CloseBehavior)
    (s : HState) :
    ((p.aexit cb none none none s).trace =
      (expectedTrace p.stdin.isSome p.stdout.isSome p.stdin_raw.isSome
        p.stdout_raw.isSome p.stderr.isSome).take
        (p.aexit cb none none none s).trace.length) ∧
    ((p.aexit cb none none none s).result = PyResult.returned none →
      (p.aexit cb none none none s).trace =
        expectedTrace p.stdin.isSome p.stdout.isSome p.stdin_raw.isSome
          p.stdout_raw.isSome p.stderr.isSome) := by
  have key : ∀ (b1 b2 b3 b4 b5 : Bool) (cb : CloseBehavior) (s : HState),
      ((aexitCore b1 b2 b3 b4 b5 cb s).trace =
        (expectedTrace b1 b2 b3 b4 b5).take
          (aexitCore b1 b2 b3 b4 b5 cb s).trace.length) ∧
      ((aexitCore b1 b2 b3 b4 b5 cb s).result = PyResult.returned none →
        (aexitCore b1 b2 b3 b4 b5 cb s).trace =
          expectedTrace b1 b2 b3 b4 b5) := by decide
  exact key _ _ _ _ _ cb s

/-- Witness for `C2_fail_fast` at a concrete adapter and state. -/
theorem C2_fail_fast_witness :
    (sampleProcess.aexit noFailure none none none initState).trace =
      expectedTrace sampleProcess.stdin.isSome sampleProcess.stdout.isSome
        sampleProcess.stdin_raw.isSome sampleProcess.stdout_raw.isSome
        sampleProcess.stderr.isSome :=
  (C2_fail_fast sampleProcess noFailure initState).2 (by decide)

set_option maxHeartbeats 8000000 in
/-- Claim C3: within one teardown each underlying raw handle is effectively
closed at most once (the later raw `close` after the stream `aclose` is an
idempotent no-op), and when a teardown has completed without raising, a
second teardown on the same adapter raises nothing and closes no handle
again, whatever the close-failure behavior. -/
theorem C3_single_close (p : FallbackProcess) (cb : CloseBehavior)
    (s : HState) :
    ((p.aexit cb none none none s).effClosed.Nodup) ∧
    ((p.aexit cb none none none s).result = PyResult.returned none →
      ((p.aexit cb none none none
          ((p.aexit cb none none none s).state)).result =
        PyResult.returned none ∧
      (p.aexit cb none none none
          ((p.aexit cb none none none s).state)).effClosed = [])) := by
  have key : ∀ (b1 b2 b3 b4 b5 : Bool) (cb : CloseBehavior) (s : HState),
      ((aexitCore b1 b2 b3 b4 b5 cb s).effClosed.Nodup) ∧
      ((aexitCore b1 b2 b3 b4 b5 cb s).result = PyResult.returned none →
        ((aexitCore b1 b2 b3 b4 b5 cb
            ((aexitCore b1 b2 b3 b4 b5 cb s).state)).result =
          PyResult.returned none ∧
        (aexitCore b1 b2 b3 b4 b5 cb
            ((aexitCore b1 b2 b3 b4 b5 cb s).state)).effClosed = [])) := by
    decide
  exact key _ _ _ _ _ cb s

/-- Witness for `C3_single_close` at a concrete adapter and state. -/
theorem C3_single_close_witness :
    ((sampleProcess.aexit noFailure none none none
        initState).effClosed.Nodup) ∧
    ((sampleProcess.aexit noFailure none none none
        ((sampleProcess.aexit noFailure none none none
          initState).state)).result = PyResult.returned none ∧
    (sampleProcess.aexit noFailure none none none
        ((sampleProcess.aexit noFailure none none none
          initState).state)).effClosed = []) :=
  ⟨(C3_single_close sampleProcess noFailure initState).1,
   (C3_single_close sampleProcess noFailure initState).2 (by decide)⟩

set_option maxHeartbeats 4000000 in
/-- Claim C10: `FallbackProcess.__aexit__` performs the same teardown for
every combination of exception arguments, and it never asks the runtime to
suppress the managed exception: it either propagates a close failure or
returns `None`, and when no close call fails it always returns `None`. -/
theorem C10_aexit_exc_independent (p : FallbackProcess)
    (cb : CloseBehavior) (s : HState) (et1 ev1 et2 ev2 : Option PyExc)
    (tb1 tb2 : Option Unit) :
    (p.aexit cb et1 ev1 tb1 s = p.aexit cb et2 ev2 tb2 s) ∧
    ((p.aexit cb et1 ev1 tb1 s).result = PyResult.raised PyExc.osError ∨
      (p.aexit cb et1 ev1 tb1 s).result = PyResult.returned none) ∧
    ((p.aexit noFailure et1 ev1 tb1 s).result =
      PyResult.returned none) := by
  refine ⟨rfl, ?_, ?_⟩
  · have key : ∀ (b1 b2 b3 b4 b5 : Bool) (cb : CloseBehavior)
        (s : HState),
        (aexitCore b1 b2 b3 b4 b5 cb s).result =
          PyResult.raised PyExc.osError ∨
        (aexitCore b1 b2 b3 b4 b5 cb s).result =
          PyResult.returned none := by decide
    exact key _ _ _ _ _ cb s
  · have key2 : ∀ (b1 b2 b3 b4 b5 : Bool) (s : HState),
        (aexitCore b1 b2 b3 b4 b5 noFailure s).result =
          PyResult.returned none := by decide
    exact key2 _ _ _ _ _ s

/-- Under a lookup oracle that raises nothing but `OSError`, the suffix
loop either ends in an `OSError` (to be caught by the outer handler) or
returns a hit (nonempty, by the truthiness test) or the original command. -/
lemma whichLoop_total (which : String → LookupResult) (command : String)
    (h : ∀ s, which s ≠ LookupResult.raise PyExc.other) :
    ∀ exts : List String,
      whichLoop which command exts = Except.error PyExc.osError ∨
      ∃ out, whichLoop which command exts = Except.ok out ∧
        (out = command ∨ out ≠ "") := by
  intro exts
  induction exts with
  | nil => exact Or.inr ⟨command, rfl, Or.inl rfl⟩
  | cons ext rest ih =>
    cases hw : which (command ++ ext) with
    | found p =>
      by_cases hp : p = ""
      · have heq : whichLoop which command (ext :: rest) =
            whichLoop which command rest := by
          simp [whichLoop, hw, hp]
        rw [heq]; exact ih
      · exact Or.inr ⟨p, by simp [whichLoop, hw, hp], Or.inr hp⟩
    | notFound =>
      have heq : whichLoop which command (ext :: rest) =
          whichLoop which command rest := by
        simp [whichLoop, hw]
      rw [heq]; exact ih
    | raise e =>
      cases e with
      | osError => exact Or.inl (by simp [whichLoop, hw])
      | other => exact absurd hw (h _)

/-- Claim C4, counterexample: on the empty command name the resolver
returns the empty string, and a lookup failure that is not an `OSError`
propagates out of the resolver uncaught. -/
theorem C4_counterexample :
    get_windows_executable_command (fun _ => LookupResult.notFound) "" =
      Except.ok "" ∧
    get_windows_executable_command
        (fun _ => LookupResult.raise PyExc.other) "npx" =
      Except.error PyExc.other :=
  ⟨rfl, rfl⟩

/-- Claim C4, amended: for every non-empty command name, if the underlying
path lookup raises nothing but `OSError`, the resolver returns a non-empty
string and never raises. -/
theorem C4_total_amended (which : String → LookupResult) (command : String)
    (h : ∀ s, which s ≠ LookupResult.raise PyExc.other)
    (hc : command ≠ "") :
    ∃ out, get_windows_executable_command which command = Except.ok out ∧
      out ≠ "" := by
  have hbody : resolveBody which command = Except.error PyExc.osError ∨
      ∃ out, resolveBody which command = Except.ok out ∧
        (out = command ∨ out ≠ "") := by
    cases hw : which command with
    | found p =>
      by_cases hp : p = ""
      · have heq : resolveBody which command =
            whichLoop which command searchExts := by
          simp [resolveBody, hw, hp]
        rw [heq]; exact whichLoop_total which command h searchExts
      · exact Or.inr ⟨p, by simp [resolveBody, hw, hp], Or.inr hp⟩
    | notFound =>
      have heq : resolveBody which command =
          whichLoop which command searchExts := by
        simp [resolveBody, hw]
      rw [heq]; exact whichLoop_total which command h searchExts
    | raise e =>
      cases e with
      | osError => exact Or.inl (by simp [resolveBody, hw])
      | other => exact absurd hw (h _)
  rcases hbody with herr | ⟨out, hok, hout⟩
  · exact ⟨command, by simp [get_windows_executable_command, herr], hc⟩
  · refine ⟨out, by simp [get_windows_executable_command, hok], ?_⟩
    rcases hout with rfl | hne
    · exact hc
    · exact hne

/-- Witness for `C4_total_amended` at a concrete oracle and command. -/
theorem C4_total_amended_witness :
    ∃ out, get_windows_executable_command (fun _ => LookupResult.notFound)
        "npx" = Except.ok out ∧ out ≠ "" :=
  C4_total_amended (fun _ => LookupResult.notFound) "npx"
    (fun s h => LookupResult.noConfusion h) (by decide)

/-- Claim C5, counterexample: on `cex5which` the bare lookup of `uvx`
raises a filesystem error while the candidate `uvx.cmd` would resolve, yet
the resolver returns the original name `uvx` — it does not continue to the
next suffix candidate. -/
theorem C5_counterexample :
    cex5which ("uvx" ++ ".cmd") = LookupResult.found "C:/tools/uvx.cmd" ∧
    get_windows_executable_command cex5which "uvx" = Except.ok "uvx" ∧
    ("uvx" : String) ≠ "C:/tools/uvx.cmd" := by
  refine ⟨rfl, rfl, by decide⟩

/-- Claim C5, amended: a filesystem error (`OSError`) during any candidate
lookup aborts the whole search — the resolver immediately returns the
original command name, and an error inside the suffix loop ends the loop
with that error rather than continuing with the remaining candidates. -/
theorem C5_oserror_aborts (which : String → LookupResult)
    (command : String) :
    (which command = LookupResult.raise PyExc.osError →
      get_windows_executable_command which command = Except.ok command) ∧
    (∀ ext rest, which (command ++ ext) = LookupResult.raise PyExc.osError →
      whichLoop which command (ext :: rest) =
        Except.error PyExc.osError) := by
  constructor
  · intro hw
    simp [get_windows_executable_command, resolveBody, hw]
  · intro ext rest hw
    simp [whichLoop, hw]

/-- Witness for `C5_oserror_aborts` at a concrete oracle and command. -/
theorem C5_oserror_aborts_witness :
    get_windows_executable_command
        (fun _ => LookupResult.raise PyExc.osError) "uvx" =
      Except.ok "uvx" :=
  (C5_oserror_aborts (fun _ => LookupResult.raise PyExc.osError) "uvx").1
    rfl

/-- For an exception-free lookup, the suffix loop returns the first
truthy hit among the suffixed candidates, or the original command. -/
lemma whichLoop_lift (whichS : String → Option String) (command : String)
    (hne : ∀ s p, whichS s = some p → p ≠ "") :
    ∀ exts : List String,
      whichLoop (liftWhich whichS) command exts =
        Except.ok ((exts.findSome?
          (fun ext => whichS (command ++ ext))).getD command) := by
  intro exts
  induction exts with
  | nil => rfl
  | cons ext rest ih =>
    cases hw : whichS (command ++ ext) with
    | some p =>
      have hp : p ≠ "" := hne _ _ hw
      simp [whichLoop, liftWhich, hw, hp]
    | none =>
      simpa [whichLoop, liftWhich, hw] using ih

/-- Claim C6: over any exception-free lookup whose hits are non-empty
paths, the resolver implements exactly the specified algorithm: bare
lookup first, then the suffixes `.cmd`, `.bat`, `.exe`, `.ps1` in order,
first hit wins, otherwise the original command name. -/
theorem C6_algorithm (whichS : String → Option String) (command : String)
    (hne : ∀ s p, whichS s = some p → p ≠ "") :
    get_windows_executable_command (liftWhich whichS) command =
      Except.ok (specResolve whichS command) := by
  cases hw : whichS command with
  | some p =>
    have hp : p ≠ "" := hne _ _ hw
    simp [get_windows_executable_command, resolveBody, liftWhich, hw, hp,
      specResolve]
  | none =>
    have hloop := whichLoop_lift whichS command hne searchExts
    cases hfs : searchExts.findSome? (fun ext => whichS (command ++ ext))
      with
    | some p =>
      rw [hfs] at hloop
      simp [get_windows_executable_command, resolveBody, liftWhich, hw,
        hloop, specResolve, hfs]
    | none =>
      rw [hfs] at hloop
      simp [get_windows_executable_command, resolveBody, liftWhich, hw,
        hloop, specResolve, hfs]

/-- Witness for `C6_algorithm` at a concrete oracle and command. -/
theorem C6_algorithm_witness :
    get_windows_executable_command (liftWhich (fun _ => none)) "npx" =
      Except.ok (specResolve (fun _ => none) "npx") :=
  C6_algorithm (fun _ => none) "npx" (fun s p h => Option.noConfusion h)

/-- A concrete spawn oracle whose creation-flags attempt fails and whose
plain attempt succeeds. -/
def cex7spawn : SpawnArgs → Bool → SpawnOutcome := fun _ flag =>
  if flag then SpawnOutcome.raise PyExc.other
  else SpawnOutcome.ok ⟨none, none, none⟩

/-- Claim C7: the launcher makes at most two spawn attempts; a first
success (with the console-suppression flag) is wrapped and returned after
one attempt; if the first attempt raises, one identical attempt without
the flag follows, whose success is wrapped and returned and whose failure
propagates to the caller. -/
theorem C7_two_tier (spawn : SpawnArgs → Bool → SpawnOutcome)
    (command : String) (args : List String)
    (env : Option (List (String × String))) (errlog : Option Nat)
    (cwd : Option String) :
    ((create_windows_process spawn command args env errlog cwd).1.length ≤
      2) ∧
    (∀ po, spawn ⟨command, args, env, errlog, cwd⟩ true =
        SpawnOutcome.ok po →
      create_windows_process spawn command args env errlog cwd =
        ([true], Except.ok (FallbackProcess.ofPopen po))) ∧
    (∀ e po, spawn ⟨command, args, env, errlog, cwd⟩ true =
        SpawnOutcome.raise e →
      spawn ⟨command, args, env, errlog, cwd⟩ false =
        SpawnOutcome.ok po →
      create_windows_process spawn command args env errlog cwd =
        ([true, false], Except.ok (FallbackProcess.ofPopen po))) ∧
    (∀ e1 e2, spawn ⟨command, args, env, errlog, cwd⟩ true =
        SpawnOutcome.raise e1 →
      spawn ⟨command, args, env, errlog, cwd⟩ false =
        SpawnOutcome.raise e2 →
      create_windows_process spawn command args env errlog cwd =
        ([true, false], Except.error e2)) := by
  refine ⟨?_, ?_, ?_, ?_⟩
  · cases h1 : spawn ⟨command, args, env, errlog, cwd⟩ true with
    | ok po => simp [create_windows_process, h1]
    | raise e =>
      cases h2 : spawn ⟨command, args, env, errlog, cwd⟩ false with
      | ok po => simp [create_windows_process, h1, h2]
      | raise e2 => simp [create_windows_process, h1, h2]
  · intro po h1
    simp [create_windows_process, h1]
  · intro e po h1 h2
    simp [create_windows_process, h1, h2]
  · intro e1 e2 h1 h2
    simp [create_windows_process, h1, h2]

/-- Witness for `C7_two_tier`: the fallback tier succeeds after the
flagged attempt raised. -/
theorem C7_two_tier_witness :
    create_windows_process cex7spawn "cmd" [] none none none =
      ([true, false],
        Except.ok (FallbackProcess.ofPopen ⟨none, none, none⟩)) :=
  (C7_two_tier cex7spawn "cmd" [] none none none).2.2.1 PyExc.other
    ⟨none, none, none⟩ rfl rfl

/-- Claim C8: on every adapter and state, `kill()` performs exactly the
termination request that `terminate()` performs — both delegate to
`popen.terminate`, whose only effect is requesting termination. -/
theorem C8_kill_eq_terminate (p : FallbackProcess) (s : HState) :
    p.kill s = p.terminate s ∧ p.terminate s = p.popen.terminate s ∧
      p.kill s = { s with termRequested := true } :=
  ⟨rfl, rfl, rfl⟩

/-- Claim C9: at construction the write stream exists exactly when the raw
standard-input handle does and wraps it, the read stream exists exactly
when the raw standard-output handle does and wraps it, and the raw
standard-error handle is retained unwrapped. -/
theorem C9_init_wrapping (popen_obj : Popen) :
    ((FallbackProcess.ofPopen popen_obj).stdin.isSome =
      popen_obj.stdin.isSome) ∧
    ((FallbackProcess.ofPopen popen_obj).stdout.isSome =
      popen_obj.stdout.isSome) ∧
    ((FallbackProcess.ofPopen popen_obj).stdin =
      popen_obj.stdin.map (fun f => FileWriteStream.mk f)) ∧
    ((FallbackProcess.ofPopen popen_obj).stdout =
      popen_obj.stdout.map (fun f => FileReadStream.mk f)) ∧
    ((FallbackProcess.ofPopen popen_obj).stderr = popen_obj.stderr) ∧
    ((FallbackProcess.ofPopen popen_obj).stdin_raw = popen_obj.stdin) ∧
    ((FallbackProcess.ofPopen popen_obj).stdout_raw = popen_obj.stdout) := by
  refine ⟨?_, ?_, rfl, rfl, rfl, rfl, rfl⟩
  · cases h : popen_obj.stdin <;> simp [FallbackProcess.ofPopen, h]
  · cases h : popen_obj.stdout <;> simp [FallbackProcess.ofPopen, h]
